import Mathlib

/-!
Verification of the order financial computation and checkout settlement
subsystem of the Kissanbandi storefront.

The definitions below are a shallow embedding of the JavaScript source:

* `src/Kissanbandi/src/config/config.js` — checkout page: subtotal/GST/shipping
  totals, the Razorpay payment flow (`handleProceedToPayment`, the verification
  `handler`), and the cash-on-delivery flow (`handleCODOrder`).
* `src/Kissanbandi/src/pages/vegetables/FreshVegetables.jsx` — orders page:
  `getInvoiceOrderNumber`, `getIndividualProductGST`, `calculateGSTBreakdown`,
  `generateInvoicePDF` (invoice header and totals), `convertToWords`.

JavaScript numbers are modelled as `ℚ` (idealised exact arithmetic).
`x.toFixed(2)` / `Math.round(x*100)/100` become `round2`, `x.toFixed(1)` /
`Math.round(x*10)/10` become `round1` (JS `Math.round` rounds half toward +∞,
i.e. `⌊x + 1/2⌋`).  Optional / possibly-`undefined` fields are `Option`;
JS truthiness of a number is `≠ 0`, of a string is `≠ ""`, of an absent field
is false.  The source functions never `throw` in the fragments embedded here,
so all embeddings are total functions.
-/

namespace Kissanbandi

/-- JS `Math.round(x * 100) / 100` and `x.toFixed(2)` read back as a number:
round to 2 decimal places, halves toward +∞. -/
def round2 (x : ℚ) : ℚ := (⌊x * 100 + 1/2⌋ : ℤ) / 100

/-- JS `Math.round(x * 10) / 10` and `x.toFixed(1)` read back as a number:
round to 1 decimal place, halves toward +∞. -/
def round1 (x : ℚ) : ℚ := (⌊x * 10 + 1/2⌋ : ℤ) / 10

/-- JS `a || b` for an optional numeric `a` and a number `b`:
`a` wins iff it is present and truthy (non-zero). -/
def jsOrQ (a : Option ℚ) (b : ℚ) : ℚ :=
  match a with
  | some x => if x = 0 then b else x
  | none => b

/-- JS `a || b` for an optional string `a` and a string `b`:
`a` wins iff it is present and truthy (non-empty). -/
def jsOrStr (a : Option String) (b : String) : String :=
  match a with
  | some s => if s = "" then b else s
  | none => b

/-- JS truthiness of an optional string: present and non-empty. -/
def strTruthy (o : Option String) : Bool :=
  match o with
  | some s => s ≠ ""
  | none => false

/-! ## MonetaryTotals — checkout page (`config.js` lines 109–129)

`calculateSubtotal`, `calculateGST`, the shipping fee and the grand total of
the checkout page.  The GST rates are the configured constants
`GST_RATES = { CGST: 2.5, SGST: 2.5 }`. -/

/-- A cart entry as used by `calculateSubtotal`: `item.price * item.quantity`. -/
structure CartItem where
  price : ℚ
  quantity : ℚ
deriving Repr, DecidableEq

/-- `GST_RATES.CGST` (2.5%). -/
def GST_CGST : ℚ := 5/2

/-- `GST_RATES.SGST` (2.5%). -/
def GST_SGST : ℚ := 5/2

/-- `calculateSubtotal()`: sum of `item.price * item.quantity` over the cart. -/
def calculateSubtotal (items : List CartItem) : ℚ :=
  items.foldl (fun total item => total + item.price * item.quantity) 0

/-- Result record of `calculateGST`. -/
structure GSTCalc where
  cgst : ℚ
  sgst : ℚ
  totalGST : ℚ
deriving Repr, DecidableEq

/-- `calculateGST(subtotal)`: CGST and SGST at the configured rates, each
rounded to 2 decimals, and their (rounded) sum. -/
def calculateGST (subtotal : ℚ) : GSTCalc :=
  let cgst := subtotal * GST_CGST / 100
  let sgst := subtotal * GST_SGST / 100
  let totalGST := cgst + sgst
  { cgst := round2 cgst, sgst := round2 sgst, totalGST := round2 totalGST }

/-- `const shipping = subtotal >= 500 ? 0 : 50`. -/
def checkoutShipping (subtotal : ℚ) : ℚ :=
  if 500 ≤ subtotal then 0 else 50

/-- `const total = subtotal + gstCalculation.totalGST + shipping`. -/
def checkoutTotal (subtotal : ℚ) : ℚ :=
  subtotal + (calculateGST subtotal).totalGST + checkoutShipping subtotal

/-- The grand total as presented (`total.toFixed(2)` in the summary panel):
rounding to 2 decimals happens only at this final display step. -/
def displayedCheckoutTotal (subtotal : ℚ) : ℚ :=
  round2 (checkoutTotal subtotal)

/-! ## CheckoutOrchestrator — settlement and cart clearing (`config.js`)

The Razorpay flow of `handleProceedToPayment` (lines 213–326) and
`handleCODOrder` (lines 337–364).  The only two `dispatch({ type: 'CLEAR_CART' })`
sites in the file are the `verificationResponse.success` branch of the payment
handler (line 284) and the `response._id` branch of the COD flow (line 353);
every other outcome leaves the cart untouched. -/

/-- Terminal phase of one checkout attempt. -/
inductive Phase where
  | settled
  | failed
  | cancelled
deriving Repr, DecidableEq

/-- Outcome of `ordersApi.verifyPayment`: a resolved response carrying a
`success` flag, or a thrown error (network failure etc.). -/
inductive VerifyOutcome where
  | response (success : Bool)
  | thrown
deriving Repr, DecidableEq

/-- The Razorpay `handler` callback (lines 261–296): on `success` it clears the
cart and navigates to orders (settled); a falsy `success` throws
`Payment verification failed`, which the surrounding `catch` turns into a
failed attempt with the cart untouched; a thrown verification call lands in
the same `catch`. -/
def razorpayVerifyHandler (cart : List CartItem) (v : VerifyOutcome) :
    List CartItem × Phase :=
  match v with
  | .response true => ([], .settled)
  | .response false => (cart, .failed)
  | .thrown => (cart, .failed)

/-- Outcome of `ordersApi.createRazorpayOrder`: a resolved response whose
`orderId` may be falsy (empty), or a thrown error. -/
inductive GatewayResult where
  | ok (orderId : String)
  | thrown
deriving Repr, DecidableEq

/-- How the Razorpay widget round resolves: the user completes payment
(`handler` fires), dismisses the modal (`modal.ondismiss`), or the gateway
reports `payment.failed`. -/
inductive WidgetEvent where
  | completed
  | dismissed
  | paymentFailed
deriving Repr, DecidableEq

/-- One whole Razorpay checkout attempt, from gateway order creation to the
verification callback, returning the final cart and phase.  A thrown
`createRazorpayOrder` or a falsy `orderResponse.orderId` is caught
(`orderError`) and the attempt fails with the cart untouched; widget dismissal
cancels; `payment.failed` fails; a completed widget hands over to
`razorpayVerifyHandler`. -/
def razorpayCheckout (cart : List CartItem) (g : GatewayResult)
    (w : WidgetEvent) (v : VerifyOutcome) : List CartItem × Phase :=
  match g with
  | .thrown => (cart, .failed)
  | .ok orderId =>
    if orderId = "" then (cart, .failed)
    else
      match w with
      | .dismissed => (cart, .cancelled)
      | .paymentFailed => (cart, .failed)
      | .completed => razorpayVerifyHandler cart v

/-- Outcome of `ordersApi.createOrder` in the COD flow: a resolved response
with an optional `_id`, or a thrown error. -/
inductive CodResult where
  | created (id : Option String)
  | thrown
deriving Repr, DecidableEq

/-- `handleCODOrder` (lines 337–364): a truthy `response._id` clears the cart
(settled); a falsy `_id` throws `Failed to create order`, caught with the cart
untouched; a thrown `createOrder` likewise. -/
def handleCODOrder (cart : List CartItem) (r : CodResult) :
    List CartItem × Phase :=
  match r with
  | .created id => if strTruthy id then ([], .settled) else (cart, .failed)
  | .thrown => (cart, .failed)

/-! ## CheckoutOrchestrator — concurrency guard (`config.js`)

`handleProceedToPayment` (lines 199–241) together with the proceed button
(lines 692–695, `disabled={isProcessing}`).  Per the event-driven model
(spec §5, transitions run to completion before the next event), a click on the
disabled button is ignored.  The handler validates login and address before
setting `isProcessing`, then checks the Razorpay key (clearing the flag again
on a bad key) and finally calls `ordersApi.createRazorpayOrder` — the gateway
order creation counted here.  On the success path the flag stays set until the
widget/verification callbacks clear it. -/

/-- The checkout session state relevant to the duplicate-submission guard. -/
structure SessionState where
  isProcessing : Bool
  userLoggedIn : Bool
  addressValid : Bool
  keyValid : Bool
  gatewayOrdersCreated : Nat
deriving Repr, DecidableEq

/-- One click of the proceed button (Razorpay method).  While
`isProcessing` the button is disabled, so the click does nothing; otherwise
`handleProceedToPayment` runs: missing login or invalid address return before
the flag is set; an invalid key sets then clears the flag; otherwise the flag
is set and one gateway order is created. -/
def clickProceedToPayment (s : SessionState) : SessionState :=
  if s.isProcessing then s
  else if !s.userLoggedIn then s
  else if !s.addressValid then s
  else if !s.keyValid then { s with isProcessing := false }
  else { s with isProcessing := true,
                gatewayOrdersCreated := s.gatewayOrdersCreated + 1 }

/-! ## TaxLedger — `getIndividualProductGST` (`FreshVegetables.jsx` lines 484–601)

An order line item as read by the tax functions.  `price` and `quantity` are
the always-present numeric fields; the stored tax fields and the product
metadata fields are optional (`undefined` when absent). -/

/-- A persisted order line item.  `productGstRate` / `productGst` model
`item.product?.gstRate` / `item.product?.gst`, and `hsn` / `productHsn` /
`productHsnCode` model `item.hsn` / `item.product?.hsn` /
`item.product?.hsnCode`. -/
structure OrderItem where
  price : ℚ
  quantity : ℚ
  basePrice : Option ℚ := none
  gst : Option ℚ := none
  gstAmount : Option ℚ := none
  gstRate : Option ℚ := none
  productGstRate : Option ℚ := none
  productGst : Option ℚ := none
  hsn : Option String := none
  productHsn : Option String := none
  productHsnCode : Option String := none
deriving Repr, DecidableEq

/-- The per-line tax breakdown returned by `getIndividualProductGST`.  The
source formats each numeric field with `toFixed` on return; the fields here
hold the full-precision values and callers that read the formatted strings
back (`parseFloat(...toFixed(...))` in `calculateGSTBreakdown`) apply
`round2` / `round1` explicitly. -/
structure GSTData where
  basePrice : ℚ
  gstRate : ℚ
  gstAmountPerUnit : ℚ
  totalGstAmount : ℚ
  cgstAmount : ℚ
  sgstAmount : ℚ
  totalAmount : ℚ
  hsn : String
deriving Repr, DecidableEq

/-- The Method-1 (Tier A) guard, line 498:
`(item.basePrice !== undefined || item.gst !== undefined) &&
 (item.gst !== undefined || item.gstAmount !== undefined)`. -/
def tierACond (item : OrderItem) : Bool :=
  (item.basePrice.isSome || item.gst.isSome) &&
  (item.gst.isSome || item.gstAmount.isSome)

/-- Tier A per-unit GST amount, line 501:
`parseFloat(item.gst || item.gstAmount) || 0`. -/
def tierAAmt (item : OrderItem) : ℚ :=
  jsOrQ item.gst (item.gstAmount.getD 0)

/-- Tier A base price, lines 504–508: `parseFloat(item.basePrice) || 0`,
replaced by `item.price - gstAmountPerUnit` when it is `0`, the price is
truthy and the GST amount is positive. -/
def tierABase (item : OrderItem) : ℚ :=
  let bp0 := item.basePrice.getD 0
  if bp0 = 0 ∧ item.price ≠ 0 ∧ 0 < tierAAmt item then item.price - tierAAmt item
  else bp0

/-- Tier B fallback rate, line 560:
`item.gst || item.product?.gstRate || item.product?.gst || 18`. -/
def tierBRate (item : OrderItem) : ℚ :=
  jsOrQ item.gst (jsOrQ item.productGstRate (jsOrQ item.productGst 18))

/-- HSN code resolution, lines 520 / 561:
`item.hsn || item.product?.hsn || item.product?.hsnCode || '1234'`. -/
def itemHsn (item : OrderItem) : String :=
  jsOrStr item.hsn (jsOrStr item.productHsn (jsOrStr item.productHsnCode "1234"))

/-- `getIndividualProductGST(item, orderData)` (lines 484–601).

Method 1 (Tier A, stored fields): effective rate `(amt/base)*100` when both
are positive, else `parseFloat(item.gstRate) || 18`; totals from the per-unit
amount and the quantity, CGST and SGST each half of the total.

Method 2 (Tier B, no stored amount): the line total
`(item.price || 0) * (item.quantity || 0)` is treated as tax-inclusive at the
fallback rate; `basePrice` is reverse-derived **for the whole line**
(`totalItemAmount / (1 + rate/100)`), the per-unit figures divide by
`item.quantity || 1`, and the rate is recomputed from them when positive. -/
def getIndividualProductGST (item : OrderItem) : GSTData :=
  if tierACond item then
    let gstAmountPerUnit := tierAAmt item
    let basePrice := tierABase item
    let gstRate :=
      if 0 < basePrice ∧ 0 < gstAmountPerUnit then gstAmountPerUnit / basePrice * 100
      else jsOrQ item.gstRate 18
    let totalGstAmount := gstAmountPerUnit * item.quantity
    { basePrice := basePrice
      gstRate := gstRate
      gstAmountPerUnit := gstAmountPerUnit
      totalGstAmount := totalGstAmount
      cgstAmount := totalGstAmount / 2
      sgstAmount := totalGstAmount / 2
      totalAmount := item.price * item.quantity
      hsn := itemHsn item }
  else
    let totalItemAmount := item.price * item.quantity
    let productGstRate := tierBRate item
    let basePrice := totalItemAmount / (1 + productGstRate / 100)
    let totalGstAmount := totalItemAmount - basePrice
    let qtyOr1 := if item.quantity = 0 then 1 else item.quantity
    let gstAmountPerUnit := totalGstAmount / qtyOr1
    let basePricePerUnit := basePrice / qtyOr1
    let calculatedGstRate :=
      if 0 < basePricePerUnit ∧ 0 < gstAmountPerUnit then
        gstAmountPerUnit / basePricePerUnit * 100
      else productGstRate
    { basePrice := basePrice
      gstRate := calculatedGstRate
      gstAmountPerUnit := gstAmountPerUnit
      totalGstAmount := totalGstAmount
      cgstAmount := totalGstAmount / 2
      sgstAmount := totalGstAmount / 2
      totalAmount := totalItemAmount
      hsn := itemHsn item }

/-! ## TaxLedger — `calculateGSTBreakdown` (`FreshVegetables.jsx` lines 604–700) -/

/-- The order-level fields read by `calculateGSTBreakdown`.  `items = none`
models an `items` field that is absent or not an array (the
`orderData?.items && Array.isArray(orderData.items)` guard); note an empty
array is `some []`, which still enters the per-item branch. -/
structure GSTOrderData where
  items : Option (List OrderItem) := none
  gstAmount : Option ℚ := none
  discountedSubtotal : Option ℚ := none
deriving Repr, DecidableEq

/-- The aggregate returned by `calculateGSTBreakdown`. -/
structure GSTBreakdown where
  cgst : ℚ
  sgst : ℚ
  totalGST : ℚ
  cgstRate : ℚ
  sgstRate : ℚ
  totalRate : ℚ
deriving Repr, DecidableEq

/-- The all-zero aggregate (the final "no GST data found" fallback). -/
def zeroGSTBreakdown : GSTBreakdown :=
  { cgst := 0, sgst := 0, totalGST := 0, cgstRate := 0, sgstRate := 0, totalRate := 0 }

/-- Accumulator of the per-item loop of `calculateGSTBreakdown`. -/
structure GSTAcc where
  totalCGST : ℚ
  totalSGST : ℚ
  totalGST : ℚ
  weightedGSTRate : ℚ
  totalBaseAmount : ℚ
deriving Repr, DecidableEq

/-- One iteration of the `orderData.items.forEach` loop (lines 623–638): the
formatted strings of `getIndividualProductGST` are parsed back, so the 2- and
1-decimal roundings of `toFixed` apply; the base amount and the weighted rate
use `itemBasePrice * (item.quantity || 1)`. -/
def gstAccStep (acc : GSTAcc) (item : OrderItem) : GSTAcc :=
  let g := getIndividualProductGST item
  let itemCGST := round2 g.cgstAmount
  let itemSGST := round2 g.sgstAmount
  let itemGST := round2 g.totalGstAmount
  let itemBasePrice := round2 g.basePrice
  let gstRate := round1 g.gstRate
  let qtyOr1 := if item.quantity = 0 then 1 else item.quantity
  { totalCGST := acc.totalCGST + itemCGST
    totalSGST := acc.totalSGST + itemSGST
    totalGST := acc.totalGST + itemGST
    weightedGSTRate := acc.weightedGSTRate + gstRate * (itemBasePrice * qtyOr1)
    totalBaseAmount := acc.totalBaseAmount + itemBasePrice * qtyOr1 }

/-- `calculateGSTBreakdown(orderData, subtotalAfterDiscount)` (lines 604–700).

First branch: whenever `orderData.items` is an array (even empty), aggregate
the per-item breakdowns and a base-amount-weighted average rate.  Second
branch: when there is no items array but `orderData.gstAmount` is truthy and
positive, split it equally and derive the effective rate from
`orderData.discountedSubtotal || subtotalAfterDiscount`.  Otherwise all
zeros. -/
def calculateGSTBreakdown (orderData : GSTOrderData)
    (subtotalAfterDiscount : ℚ) : GSTBreakdown :=
  match orderData.items with
  | some items =>
    let acc := items.foldl gstAccStep
      { totalCGST := 0, totalSGST := 0, totalGST := 0,
        weightedGSTRate := 0, totalBaseAmount := 0 }
    let finalGSTRate :=
      if 0 < acc.totalBaseAmount then acc.weightedGSTRate / acc.totalBaseAmount
      else 0
    { cgst := round2 acc.totalCGST
      sgst := round2 acc.totalSGST
      totalGST := round2 acc.totalGST
      cgstRate := finalGSTRate / 2
      sgstRate := finalGSTRate / 2
      totalRate := finalGSTRate }
  | none =>
    match orderData.gstAmount with
    | some g =>
      if g ≠ 0 ∧ 0 < g then
        let totalGST := g
        let cgst := totalGST / 2
        let sgst := totalGST / 2
        let taxableAmount := jsOrQ orderData.discountedSubtotal subtotalAfterDiscount
        let effectiveRate := if 0 < taxableAmount then totalGST / taxableAmount * 100 else 0
        { cgst := round2 cgst
          sgst := round2 sgst
          totalGST := round2 totalGST
          cgstRate := round1 (effectiveRate / 2)
          sgstRate := round1 (effectiveRate / 2)
          totalRate := round1 effectiveRate }
      else zeroGSTBreakdown
    | none => zeroGSTBreakdown

/-! ## MonetaryTotals on the invoice path (`FreshVegetables.jsx` lines 820–827) -/

/-- `itemsSubtotal` of `generateInvoicePDF`:
`(orderData.items || []).reduce((sum, item) => sum + item.price * item.quantity, 0)`. -/
def itemsSubtotal (items : List OrderItem) : ℚ :=
  items.foldl (fun sum item => sum + item.price * item.quantity) 0

/-- `subtotalAfterDiscount = itemsSubtotal - couponDiscount` (line 824): a
plain subtraction with no validation or clamping — a discount larger than the
subtotal yields a negative value that flows on into the invoice. -/
def subtotalAfterDiscount (items : List OrderItem) (couponDiscount : ℚ) : ℚ :=
  itemsSubtotal items - couponDiscount

/-! ## InvoiceIdentity — `getInvoiceOrderNumber` (`FreshVegetables.jsx` lines 427–480) -/

/-- `String(n).padStart(6, '0')` for a natural number. -/
def zeroPad6 (n : Nat) : String :=
  let s := toString n
  String.mk (List.replicate (6 - s.length) '0') ++ s

/-- `s.slice(-6)`: the last 6 characters (the whole string when shorter). -/
def lastChars (k : Nat) (s : String) : String :=
  String.mk (s.toList.drop (s.length - k))

/-- The identity fields of an order as read by `getInvoiceOrderNumber`.
`createdAtYear` is the calendar year `new Date(createdAt).getFullYear()`
extracts when `createdAt` is present and truthy; `orderNumber` is numeric
(truthy iff non-zero). -/
structure InvoiceOrderData where
  invoiceNumber : Option String := none
  invoiceOrderNumber : Option String := none
  orderNumber : Option Nat := none
  formattedOrderNumber : Option String := none
  createdAtYear : Option Nat := none
  mongoId : Option String := none
deriving Repr, DecidableEq

/-- JS truthiness of the optional numeric `orderNumber`. -/
def natTruthy (o : Option Nat) : Bool :=
  match o with
  | some n => n ≠ 0
  | none => false

/-- `getInvoiceOrderNumber(orderData)` (lines 427–480), with `currentYear`
passed explicitly for the absolute fallback (`new Date().getFullYear()`):

1. a truthy stored `invoiceNumber` of length exactly 10, unchanged;
2. a truthy virtual `invoiceOrderNumber`;
3. `year(createdAt) + String(orderNumber).padStart(6, '0')`;
4. `year(createdAt) + formattedOrderNumber`;
5. `year(createdAt) + _id.slice(-6)`;
6. `currentYear + "000001"`. -/
def getInvoiceOrderNumber (o : InvoiceOrderData) (currentYear : Nat) : String :=
  if strTruthy o.invoiceNumber && (o.invoiceNumber.getD "").length == 10 then
    o.invoiceNumber.getD ""
  else if strTruthy o.invoiceOrderNumber then
    o.invoiceOrderNumber.getD ""
  else if natTruthy o.orderNumber && o.createdAtYear.isSome then
    toString (o.createdAtYear.getD 0) ++ zeroPad6 (o.orderNumber.getD 0)
  else if strTruthy o.formattedOrderNumber && o.createdAtYear.isSome then
    toString (o.createdAtYear.getD 0) ++ (o.formattedOrderNumber.getD "")
  else if o.createdAtYear.isSome && strTruthy o.mongoId then
    toString (o.createdAtYear.getD 0) ++ lastChars 6 (o.mongoId.getD "")
  else
    toString currentYear ++ "000001"

/-! ## Invoice export — the displayed invoice number
(`FreshVegetables.jsx` lines 804–815 and 1278)

`generateInvoicePDF` fetches `orders/next-order-number` afresh on every
export and renders `Invoice #: ${currentYear}${nextFormattedOrderNumber}`;
the deterministic `getInvoiceOrderNumber` above is never called for the
header.  The header therefore depends on the live counter, not on the order. -/

/-- The `Invoice #` string rendered in the header: `currentYear` concatenated
with `numberResp.data.nextFormattedOrderNumber || ''`; a failed fetch leaves
the whole string empty.  Note the absence of any order argument. -/
def invoiceHeaderNumber (currentYear : Nat) (fetched : Option String) : String :=
  match fetched with
  | some formatted => toString currentYear ++ formatted
  | none => ""

/-! ## InvoiceIdentity — `convertToWords` (`FreshVegetables.jsx` lines 1483–1496) -/

/-- The `ones` word table. -/
def onesWords : List String :=
  ["", "One", "Two", "Three", "Four", "Five", "Six", "Seven", "Eight", "Nine"]

/-- The `teens` word table. -/
def teensWords : List String :=
  ["Ten", "Eleven", "Twelve", "Thirteen", "Fourteen", "Fifteen", "Sixteen",
   "Seventeen", "Eighteen", "Nineteen"]

/-- The `tens` word table. -/
def tensWords : List String :=
  ["", "", "Twenty", "Thirty", "Forty", "Fifty", "Sixty", "Seventy", "Eighty",
   "Ninety"]

/-- `convertToWords(amount)` (lines 1483–1496) on integer amounts: the
ones/teens/tens/hundred/thousand decomposition up to 99,999 and the literal
`"Amount too large"` from 100,000 on. -/
def convertToWords (amount : Nat) : String :=
  if amount = 0 then "Zero"
  else if amount < 10 then onesWords.getD amount ""
  else if amount < 20 then teensWords.getD (amount - 10) ""
  else if amount < 100 then
    tensWords.getD (amount / 10) "" ++
      (if amount % 10 ≠ 0 then " " ++ onesWords.getD (amount % 10) "" else "")
  else if amount < 1000 then
    onesWords.getD (amount / 100) "" ++ " Hundred" ++
      (if amount % 100 ≠ 0 then " " ++ convertToWords (amount % 100) else "")
  else if amount < 100000 then
    convertToWords (amount / 1000) ++ " Thousand" ++
      (if amount % 1000 ≠ 0 then " " ++ convertToWords (amount % 1000) else "")
  else "Amount too large"
termination_by amount
decreasing_by
  · omega
  · exact Nat.div_lt_self (by omega) (by omega)
  · omega

/-! ## Theorems -/

/-- Claim C1: across one whole checkout attempt — the Razorpay flow through
gateway order creation, the widget round and the verification callback, and
the cash-on-delivery flow — the cart is cleared exactly when the attempt
settles, settlement happens exactly on an explicit success confirmation
(truthy `verificationResponse.success`, resp. a truthy created-order id), and
every failed or cancelled outcome leaves the cart unchanged, hence non-empty
when it was non-empty at entry. -/
theorem claim_C1_cart_cleared_iff_settled :
    ∀ (cart : List CartItem) (g : GatewayResult) (w : WidgetEvent)
      (v : VerifyOutcome) (r : CodResult), cart ≠ [] →
      (((razorpayCheckout cart g w v).1 = [] ↔
          (razorpayCheckout cart g w v).2 = .settled) ∧
       ((razorpayCheckout cart g w v).2 = .settled ↔
          (∃ oid, g = .ok oid ∧ oid ≠ "" ∧ w = .completed ∧ v = .response true)) ∧
       ((razorpayCheckout cart g w v).2 = .failed →
          (razorpayCheckout cart g w v).1 = cart) ∧
       ((razorpayCheckout cart g w v).2 = .cancelled →
          (razorpayCheckout cart g w v).1 = cart)) ∧
      (((handleCODOrder cart r).1 = [] ↔ (handleCODOrder cart r).2 = .settled) ∧
       ((handleCODOrder cart r).2 = .settled ↔
          ∃ id, r = .created (some id) ∧ id ≠ "") ∧
       ((handleCODOrder cart r).2 = .failed → (handleCODOrder cart r).1 = cart)) := by
  intro cart g w v r hcart
  constructor
  · rcases g with oid | _
    · by_cases hid : oid = ""
      · subst hid
        simp [razorpayCheckout, hcart]
      · rcases w with _ | _ | _ <;>
          rcases v with success | _ <;>
          first
          | (cases success <;> simp [razorpayCheckout, razorpayVerifyHandler, hcart, hid])
          | simp [razorpayCheckout, razorpayVerifyHandler, hcart, hid]
    · simp [razorpayCheckout, hcart]
  · rcases r with id | _
    · rcases id with _ | s
      · simp [handleCODOrder, strTruthy, hcart]
      · by_cases hs : s = ""
        · subst hs
          simp [handleCODOrder, strTruthy, hcart]
        · simp [handleCODOrder, strTruthy, hcart, hs]
    · simp [handleCODOrder, hcart]

/-- Witness for C1: a one-item cart, a successful gateway order, a completed
widget and an explicit success confirmation clear the cart. -/
theorem claim_C1_cart_cleared_iff_settled_witness :
    ([⟨50, 1⟩] : List CartItem) ≠ [] ∧
    ((razorpayCheckout [⟨50, 1⟩] (.ok "rzp1") .completed (.response true)).1 = [] ↔
      (razorpayCheckout [⟨50, 1⟩] (.ok "rzp1") .completed (.response true)).2 =
        .settled) :=
  ⟨by simp,
   (claim_C1_cart_cleared_iff_settled [⟨50, 1⟩] (.ok "rzp1") .completed
      (.response true) .thrown (by simp)).1.1⟩

/-- Claim C2: for a Tier A item (stored tax fields present) with a positive
stored per-unit tax amount and a positive derived base price, the effective
rate is `(taxAmountPerUnit / basePrice) * 100` regardless of any stored rate
field, the two split components are each half of the total tax, the total tax
is the per-unit amount times the quantity, and with no stored base price the
base is derived as `unitPrice - taxAmountPerUnit`. -/
theorem claim_C2_tierA_effective_rate :
    ∀ item : OrderItem, tierACond item = true →
      0 < tierAAmt item → 0 < tierABase item →
      ((getIndividualProductGST item).gstRate =
        tierAAmt item / tierABase item * 100 ∧
       (getIndividualProductGST item).cgstAmount =
        (getIndividualProductGST item).totalGstAmount / 2 ∧
       (getIndividualProductGST item).sgstAmount =
        (getIndividualProductGST item).totalGstAmount / 2 ∧
       (getIndividualProductGST item).totalGstAmount =
        tierAAmt item * item.quantity ∧
       (item.basePrice = none → item.price ≠ 0 →
        tierABase item = item.price - tierAAmt item) ∧
       (∀ r : Option ℚ,
        (getIndividualProductGST { item with gstRate := r }).gstRate =
          tierAAmt item / tierABase item * 100)) := by
  intro item h1 h2 h3
  have hrate : ∀ r : Option ℚ,
      (getIndividualProductGST { item with gstRate := r }).gstRate =
        tierAAmt item / tierABase item * 100 := by
    intro r
    have hc : tierACond { item with gstRate := r } = true := h1
    have ha : tierAAmt { item with gstRate := r } = tierAAmt item := rfl
    have hb : tierABase { item with gstRate := r } = tierABase item := rfl
    simp only [getIndividualProductGST, hc, if_true, ha, hb]
    simp [h2, h3]
  refine ⟨?_, ?_, ?_, ?_, ?_, hrate⟩
  · simp only [getIndividualProductGST, h1, if_true]
    simp [h2, h3]
  · simp [getIndividualProductGST, h1]
  · simp [getIndividualProductGST, h1]
  · simp [getIndividualProductGST, h1]
  · intro hbp hp
    simp [tierABase, hbp, hp, h2]

/-- Witness input for C2: stored per-unit tax 10 on unit price 110, no stored
base price, and a stale stored rate field of 999. -/
def tierAWitnessItem : OrderItem :=
  { price := 110, quantity := 2, gst := some 10, gstRate := some 999 }

/-- Witness for C2: on `tierAWitnessItem` the effective rate comes from the
amounts, not the stored 999. -/
theorem claim_C2_tierA_effective_rate_witness :
    tierACond tierAWitnessItem = true ∧
    (getIndividualProductGST tierAWitnessItem).gstRate =
      tierAAmt tierAWitnessItem / tierABase tierAWitnessItem * 100 :=
  ⟨rfl,
   (claim_C2_tierA_effective_rate tierAWitnessItem
      rfl (by norm_num [tierAWitnessItem, tierAAmt, jsOrQ])
      (by norm_num [tierAWitnessItem, tierABase, tierAAmt, jsOrQ])).1⟩

/-- Claim C3 counterexample: the Tier B item with unit price 118 and quantity
2 falls to Tier B at the default 18% rate, yet the returned `basePrice` is
200 — the line-level base `(118 * 2) / 1.18` — not the claimed per-unit
`118 / (1 + 18/100) = 100`. -/
theorem claim_C3_tierB_cex :
    tierACond { price := 118, quantity := 2 } = false ∧
    tierBRate { price := 118, quantity := 2 } = 18 ∧
    (118 : ℚ) / (1 + 18 / 100) = 100 ∧
    (getIndividualProductGST { price := 118, quantity := 2 }).basePrice = 200 ∧
    (getIndividualProductGST { price := 118, quantity := 2 }).basePrice ≠
      (118 : ℚ) / (1 + 18 / 100) := by
  refine ⟨rfl, rfl, by norm_num, ?_, ?_⟩
  · norm_num [getIndividualProductGST, tierACond, tierBRate, jsOrQ]
  · norm_num [getIndividualProductGST, tierACond, tierBRate, jsOrQ]

/-- Claim C3 as amended: a Tier B item is priced tax-inclusively at the
stored class rate or the 18% default, but the returned `basePrice` is the
line-level base `unitPrice * quantity / (1 + rate/100)`; the claimed per-unit
formula holds for the returned `basePrice` exactly when the quantity is 1,
while the per-unit tax amount `unitPrice - unitPrice / (1 + rate/100)` holds
for every non-zero quantity. -/
theorem claim_C3_tierB_reverse_derivation :
    ∀ item : OrderItem, tierACond item = false → item.quantity ≠ 0 →
      0 < 1 + tierBRate item / 100 →
      ((getIndividualProductGST item).basePrice =
        item.price * item.quantity / (1 + tierBRate item / 100) ∧
       (getIndividualProductGST item).gstAmountPerUnit =
        item.price - item.price / (1 + tierBRate item / 100) ∧
       (item.quantity = 1 →
        (getIndividualProductGST item).basePrice =
          item.price / (1 + tierBRate item / 100))) := by
  intro item h1 hq hr
  have hbase : (getIndividualProductGST item).basePrice =
      item.price * item.quantity / (1 + tierBRate item / 100) := by
    simp [getIndividualProductGST, h1]
  refine ⟨hbase, ?_, fun h1q => by rw [hbase, h1q, mul_one]⟩
  have hamt : (getIndividualProductGST item).gstAmountPerUnit =
      (item.price * item.quantity -
        item.price * item.quantity / (1 + tierBRate item / 100)) /
        item.quantity := by
    simp [getIndividualProductGST, h1, hq]
  rw [hamt]
  field_simp
  ring

/-- Witness for C3 as amended: the 118-rupee Tier B item at quantity 1 gives
base 100 via the per-unit formula. -/
theorem claim_C3_tierB_reverse_derivation_witness :
    tierACond { price := 118, quantity := 1 } = false ∧
    (getIndividualProductGST { price := 118, quantity := 1 }).basePrice =
      (118 : ℚ) * 1 / (1 + tierBRate { price := 118, quantity := 1 } / 100) :=
  ⟨rfl,
   (claim_C3_tierB_reverse_derivation { price := 118, quantity := 1 } rfl
      (by norm_num) (by norm_num [tierBRate, jsOrQ])).1⟩

/-- Claim C4: the shipping fee is 0 when the subtotal is at or above the 500
threshold and 50 otherwise, and the grand total presented at checkout is
`subtotal + totalGST + shipping`, rounded to 2 decimals only at the final
display step; in particular, for subtotal 300 the GST at the configured rates
is 15, the shipping fee is 50 and the displayed grand total is 365.00. -/
theorem claim_C4_checkout_totals :
    (∀ s : ℚ,
      (500 ≤ s → checkoutShipping s = 0) ∧
      (s < 500 → checkoutShipping s = 50) ∧
      displayedCheckoutTotal s =
        round2 (s + (calculateGST s).totalGST + checkoutShipping s)) ∧
    checkoutShipping 300 = 50 ∧
    (calculateGST 300).totalGST = 15 ∧
    displayedCheckoutTotal 300 = 365 := by
  refine ⟨fun s => ⟨fun h => if_pos h, fun h => if_neg (not_le.2 h), rfl⟩, ?_, ?_, ?_⟩
  · norm_num [checkoutShipping]
  · norm_num [calculateGST, round2, GST_CGST, GST_SGST]
  · norm_num [displayedCheckoutTotal, checkoutTotal, checkoutShipping,
      calculateGST, round2, GST_CGST, GST_SGST]

/-- Witness for C4 at subtotal 600 (at/above threshold, free shipping). -/
theorem claim_C4_checkout_totals_witness :
    (500 : ℚ) ≤ 600 ∧ checkoutShipping 600 = 0 :=
  ⟨by norm_num, (claim_C4_checkout_totals.1 600).1 (by norm_num)⟩

/-- Claim C7: while the processing flag is set, a proceed-to-payment click is
ignored (the button is disabled), so two overlapping proceed attempts from a
session with valid login, address and gateway key create exactly one gateway
order, the second click finding the flag set. -/
theorem claim_C7_single_gateway_order :
    (∀ s : SessionState, s.isProcessing = true → clickProceedToPayment s = s) ∧
    (∀ s : SessionState, s.isProcessing = false → s.userLoggedIn = true →
      s.addressValid = true → s.keyValid = true →
      (clickProceedToPayment (clickProceedToPayment s)).gatewayOrdersCreated =
        s.gatewayOrdersCreated + 1 ∧
      (clickProceedToPayment s).isProcessing = true) := by
  constructor
  · intro s h
    simp [clickProceedToPayment, h]
  · intro s h1 h2 h3 h4
    simp [clickProceedToPayment, h1, h2, h3, h4]

/-- Witness for C7: from an idle valid session, a double click creates exactly
one gateway order. -/
theorem claim_C7_single_gateway_order_witness :
    (clickProceedToPayment (clickProceedToPayment
      ⟨false, true, true, true, 0⟩)).gatewayOrdersCreated = 0 + 1 :=
  (claim_C7_single_gateway_order.2 ⟨false, true, true, true, 0⟩ rfl rfl rfl rfl).1

/-- Claim C9 (code bug evidence): the `Invoice #` shown by the invoice export
is `currentYear ++ fetchedNextOrderNumber`, a function of the live
next-order-number fetch and the current date only — two exports of the same
order with different fetch results render different headers, so the document
is not determined by the Order input. -/
theorem claim_C9_header_depends_on_fetch :
    invoiceHeaderNumber 2025 (some "000124") = "2025000124" ∧
    invoiceHeaderNumber 2025 (some "000125") = "2025000125" ∧
    invoiceHeaderNumber 2025 (some "000124") ≠
      invoiceHeaderNumber 2025 (some "000125") := by
  refine ⟨rfl, rfl, ?_⟩
  decide

/-- Claim C10: the amount-to-words renderer covers 0 to 99,999 through the
ones/teens/tens/hundred/thousand decomposition and returns the literal
`"Amount too large"` for every amount of 100,000 or more. -/
theorem claim_C10_amount_words :
    (∀ n : Nat, 100000 ≤ n → convertToWords n = "Amount too large") ∧
    (∀ n : Nat, 100 ≤ n → n < 1000 →
      convertToWords n = onesWords.getD (n / 100) "" ++ " Hundred" ++
        (if n % 100 ≠ 0 then " " ++ convertToWords (n % 100) else "")) ∧
    (∀ n : Nat, 1000 ≤ n → n < 100000 →
      convertToWords n = convertToWords (n / 1000) ++ " Thousand" ++
        (if n % 1000 ≠ 0 then " " ++ convertToWords (n % 1000) else "")) ∧
    convertToWords 0 = "Zero" ∧
    convertToWords 118 = "One Hundred Eighteen" ∧
    convertToWords 99999 = "Ninety Nine Thousand Nine Hundred Ninety Nine" ∧
    convertToWords 100000 = "Amount too large" := by
  refine ⟨?_, ?_, ?_, ?_, ?_, ?_, ?_⟩
  · intro n h
    rw [convertToWords]
    simp [show ¬ n = 0 by omega, show ¬ n < 10 by omega, show ¬ n < 20 by omega,
      show ¬ n < 100 by omega, show ¬ n < 1000 by omega, show ¬ n < 100000 by omega]
  · intro n h1 h2
    conv_lhs => rw [convertToWords]
    simp [show ¬ n = 0 by omega, show ¬ n < 10 by omega, show ¬ n < 20 by omega,
      show ¬ n < 100 by omega, show n < 1000 by omega]
  · intro n h1 h2
    conv_lhs => rw [convertToWords]
    simp [show ¬ n = 0 by omega, show ¬ n < 10 by omega, show ¬ n < 20 by omega,
      show ¬ n < 100 by omega, show ¬ n < 1000 by omega, show n < 100000 by omega]
  · simp [convertToWords]
  · simp [convertToWords, onesWords, teensWords]
  · simp [convertToWords, tensWords, onesWords]
  · simp [convertToWords]

/-- Witness for C10 at the one-lakh-and-above range. -/
theorem claim_C10_amount_words_witness :
    100000 ≤ 250000 ∧ convertToWords 250000 = "Amount too large" :=
  ⟨by norm_num, claim_C10_amount_words.1 250000 (by norm_num)⟩

/-- Claim C5: `getInvoiceOrderNumber` follows the stated precedence — a truthy
stored invoice number of exactly 10 characters is returned unchanged
(regardless of the other fields), otherwise the virtual field, then the year
with the zero-padded sequential number, then the year with the formatted
number, then the year with the last 6 characters of the order id, and finally
the current year with `"000001"`. -/
theorem claim_C5_invoice_precedence :
    ∀ (o : InvoiceOrderData) (cy : Nat),
      (∀ s, o.invoiceNumber = some s → s.length = 10 →
        getInvoiceOrderNumber o cy = s) ∧
      ((strTruthy o.invoiceNumber &&
          (o.invoiceNumber.getD "").length == 10) = false →
        ∀ s, o.invoiceOrderNumber = some s → s ≠ "" →
          getInvoiceOrderNumber o cy = s) ∧
      ((strTruthy o.invoiceNumber &&
          (o.invoiceNumber.getD "").length == 10) = false →
        strTruthy o.invoiceOrderNumber = false →
        ∀ n y, o.orderNumber = some n → n ≠ 0 → o.createdAtYear = some y →
          getInvoiceOrderNumber o cy = toString y ++ zeroPad6 n) ∧
      ((strTruthy o.invoiceNumber &&
          (o.invoiceNumber.getD "").length == 10) = false →
        strTruthy o.invoiceOrderNumber = false →
        (natTruthy o.orderNumber && o.createdAtYear.isSome) = false →
        ∀ s y, o.formattedOrderNumber = some s → s ≠ "" →
          o.createdAtYear = some y →
          getInvoiceOrderNumber o cy = toString y ++ s) ∧
      ((strTruthy o.invoiceNumber &&
          (o.invoiceNumber.getD "").length == 10) = false →
        strTruthy o.invoiceOrderNumber = false →
        (natTruthy o.orderNumber && o.createdAtYear.isSome) = false →
        (strTruthy o.formattedOrderNumber && o.createdAtYear.isSome) = false →
        ∀ y s, o.createdAtYear = some y → o.mongoId = some s → s ≠ "" →
          getInvoiceOrderNumber o cy = toString y ++ lastChars 6 s) ∧
      ((strTruthy o.invoiceNumber &&
          (o.invoiceNumber.getD "").length == 10) = false →
        strTruthy o.invoiceOrderNumber = false →
        (natTruthy o.orderNumber && o.createdAtYear.isSome) = false →
        (strTruthy o.formattedOrderNumber && o.createdAtYear.isSome) = false →
        (o.createdAtYear.isSome && strTruthy o.mongoId) = false →
        getInvoiceOrderNumber o cy = toString cy ++ "000001") := by
  intro o cy
  refine ⟨?_, ?_, ?_, ?_, ?_, ?_⟩
  · intro s hs hlen
    have hne : s ≠ "" := by
      intro h
      rw [h] at hlen
      simp at hlen
    simp [getInvoiceOrderNumber, hs, strTruthy, hne, hlen]
  · intro h1 s hs hne
    simp only [getInvoiceOrderNumber, h1, Bool.false_eq_true, if_false]
    simp [hs, strTruthy, hne]
  · intro h1 h2 n y hn hne hy
    simp only [getInvoiceOrderNumber, h1, h2, Bool.false_eq_true, if_false]
    simp [hn, hy, natTruthy, hne]
  · intro h1 h2 h3 s y hs hne hy
    simp only [getInvoiceOrderNumber, h1, h2, h3, Bool.false_eq_true, if_false]
    simp [hs, hy, strTruthy, hne]
  · intro h1 h2 h3 h4 y s hy hs hne
    simp only [getInvoiceOrderNumber, h1, h2, h3, h4, Bool.false_eq_true, if_false]
    simp [hy, hs, strTruthy, hne]
  · intro h1 h2 h3 h4 h5
    simp only [getInvoiceOrderNumber, h1, h2, h3, h4, h5, Bool.false_eq_true,
      if_false]

/-- Witness input for C5: an order carrying both a 10-character stored invoice
number and a sequential order number. -/
def invoiceWitnessOrder : InvoiceOrderData :=
  { invoiceNumber := some "2024000042", orderNumber := some 7,
    createdAtYear := some 2023 }

/-- Witness for C5: the stored 10-character invoice number wins over the
sequential number. -/
theorem claim_C5_invoice_precedence_witness :
    getInvoiceOrderNumber invoiceWitnessOrder 2026 = "2024000042" :=
  (claim_C5_invoice_precedence invoiceWitnessOrder 2026).1 "2024000042" rfl
    (by decide)

/-- Claim C6 counterexample: an order whose `items` field is an **empty
array** (so the order has no line items) with a stored order-level tax amount
of 100 produces the all-zero breakdown — the stored amount is never split,
because the empty array still enters the per-item branch. -/
theorem claim_C6_empty_items_cex :
    ({ items := some [], gstAmount := some 100 } : GSTOrderData).gstAmount =
      some 100 ∧
    (0 : ℚ) < 100 ∧
    calculateGSTBreakdown { items := some [], gstAmount := some 100 } 1000 =
      zeroGSTBreakdown ∧
    (calculateGSTBreakdown { items := some [], gstAmount := some 100 } 1000).cgst ≠
      50 := by
  refine ⟨rfl, by norm_num, ?_, ?_⟩
  · simp only [calculateGSTBreakdown, List.foldl_nil]
    norm_num [zeroGSTBreakdown, round2, GSTBreakdown.mk.injEq]
  · simp only [calculateGSTBreakdown, List.foldl_nil]
    norm_num [round2]

/-- Claim C6 as amended: the order-level fallback fires only when the `items`
field is absent (not an array); then a positive stored tax amount is split
into two equal components and the effective rate is derived from
`discountedSubtotal || subtotalAfterDiscount`; with neither an items array
nor a positive order-level amount everything is zero, and an order with an
empty items array is all zeros even when an order-level amount exists. -/
theorem claim_C6_order_level_fallback :
    (∀ (o : GSTOrderData) (s g : ℚ), o.items = none → o.gstAmount = some g →
      0 < g →
      ((calculateGSTBreakdown o s).cgst = round2 (g / 2) ∧
       (calculateGSTBreakdown o s).sgst = round2 (g / 2) ∧
       (calculateGSTBreakdown o s).totalGST = round2 g ∧
       (calculateGSTBreakdown o s).totalRate =
        round1 (if 0 < jsOrQ o.discountedSubtotal s then
          g / jsOrQ o.discountedSubtotal s * 100 else 0))) ∧
    (∀ (o : GSTOrderData) (s : ℚ), o.items = none → o.gstAmount = none →
      calculateGSTBreakdown o s = zeroGSTBreakdown) ∧
    (∀ (o : GSTOrderData) (s : ℚ), o.items = some [] →
      calculateGSTBreakdown o s = zeroGSTBreakdown) := by
  refine ⟨?_, ?_, ?_⟩
  · intro o s g hitems hg hpos
    have hne : g ≠ 0 := ne_of_gt hpos
    simp [calculateGSTBreakdown, hitems, hg, hne, hpos]
  · intro o s hitems hg
    simp [calculateGSTBreakdown, hitems, hg]
  · intro o s hitems
    simp only [calculateGSTBreakdown, hitems, List.foldl_nil]
    norm_num [zeroGSTBreakdown, round2, GSTBreakdown.mk.injEq]

/-- Witness for C6 as amended: a missing items array with order-level tax 100
splits into 50/50. -/
theorem claim_C6_order_level_fallback_witness :
    (calculateGSTBreakdown { items := none, gstAmount := some 100 } 1000).cgst =
      round2 (100 / 2) :=
  (claim_C6_order_level_fallback.1 { items := none, gstAmount := some 100 }
    1000 100 rfl rfl (by norm_num)).1

/-- Claim C8 counterexample: a discount of 150 against a subtotal of 100
yields `-50` with no error, and a stored per-unit tax amount of 15 on a unit
price of 10 yields a returned base price of `-5` with no error — the
computations silently return the negative values. -/
theorem claim_C8_negative_values_cex :
    subtotalAfterDiscount [{ price := 100, quantity := 1 }] 150 = -50 ∧
    subtotalAfterDiscount [{ price := 100, quantity := 1 }] 150 < 0 ∧
    (getIndividualProductGST { price := 10, quantity := 1, gst := some 15 }).basePrice
      = -5 ∧
    (getIndividualProductGST { price := 10, quantity := 1, gst := some 15 }).basePrice
      < 0 := by
  refine ⟨?_, ?_, ?_, ?_⟩ <;>
    norm_num [subtotalAfterDiscount, itemsSubtotal, getIndividualProductGST,
      tierACond, tierAAmt, tierABase, jsOrQ]

/-- Claim C8 as amended: the computations are total and raise nothing — a
discount exceeding the subtotal flows through as a negative
`subtotalAfterDiscount`, and a stored tax amount exceeding the unit price
yields a negative returned base price, with the effective rate then falling
back to `parseFloat(item.gstRate) || 18` instead of the amount formula. -/
theorem claim_C8_no_validation_error :
    (∀ (items : List OrderItem) (d : ℚ), itemsSubtotal items < d →
      subtotalAfterDiscount items d < 0) ∧
    (∀ item : OrderItem, tierACond item = true → item.basePrice.getD 0 = 0 →
      item.price ≠ 0 → 0 < tierAAmt item → item.price < tierAAmt item →
      ((getIndividualProductGST item).basePrice < 0 ∧
       (getIndividualProductGST item).basePrice = item.price - tierAAmt item ∧
       (getIndividualProductGST item).gstRate = jsOrQ item.gstRate 18)) := by
  constructor
  · intro items d h
    simpa [subtotalAfterDiscount] using h
  · intro item h1 h2 h3 h4 h5
    have hbase : tierABase item = item.price - tierAAmt item := by
      simp [tierABase, h2, h3, h4]
    have hneg : tierABase item < 0 := by
      rw [hbase]; linarith
    refine ⟨?_, ?_, ?_⟩
    · simp only [getIndividualProductGST, h1, if_true]
      exact hneg
    · simp only [getIndividualProductGST, h1, if_true]
      exact hbase
    · simp only [getIndividualProductGST, h1, if_true]
      simp [not_lt.2 hneg.le, hneg.not_lt]

/-- Witness for C8 as amended: the concrete overshooting discount flows
through as a negative subtotal. -/
theorem claim_C8_no_validation_error_witness :
    itemsSubtotal [{ price := 100, quantity := 1 }] < 150 ∧
    subtotalAfterDiscount [{ price := 100, quantity := 1 }] 150 < 0 :=
  ⟨by norm_num [itemsSubtotal],
   claim_C8_no_validation_error.1 [{ price := 100, quantity := 1 }] 150
     (by norm_num [itemsSubtotal])⟩

end Kissanbandi
